import Mathlib

/-!
Shallow embedding of the Snowflake ID generator (src/snowflake.ts, errors.ts,
types.ts) and proofs of the specification claims.

JavaScript `BigInt` values are modelled as `Int` (both are arbitrary-precision
integers; `<<`, `>>`, `|`, `&` on `BigInt` are exact two's-complement
operations, matched here by `· <<< ·` / `Int.shiftRight` / `Int.lor` /
`Int.land`).  JavaScript `number` arguments that the code range-checks are
modelled as `Int`.  The system clock (`Date.now()`) is modelled as a list of
integer readings consumed in order; the busy-wait loop of
`waitForNextMillisecond` recurses down that list.
-/

/-- The error taxonomy of errors.ts: four subtypes, each carrying a message. -/
inductive SnowflakeError where
  | ConfigurationError (message : String)
  | ClockBackwardsError (message : String)
  | TimestampExhaustedError (message : String)
  | InvalidIdError (message : String)
deriving DecidableEq

/-- BitAllocation from types.ts: bit widths for worker, process, sequence. -/
structure BitAllocation where
  workerId : Int
  processId : Int
  sequence : Int
deriving DecidableEq

/-- SnowflakeConfig from types.ts (optional fields are `Option`). -/
structure SnowflakeConfig where
  epoch : Option Int
  workerId : Int
  processId : Option Int
  bits : Option BitAllocation
deriving DecidableEq

/-- ResolvedSnowflakeConfig: all defaults filled in. -/
structure ResolvedSnowflakeConfig where
  epoch : Int
  workerId : Int
  processId : Int
  bits : BitAllocation
deriving DecidableEq

/-- SnowflakeComponents from types.ts: result of `decompose`. -/
structure SnowflakeComponents where
  timestamp : Int
  workerId : Int
  processId : Int
  sequence : Int
deriving DecidableEq

/-- DEFAULT_EPOCH: 2020-01-01 00:00:00 UTC in ms. -/
def DEFAULT_EPOCH : Int := 1577836800000

/-- DEFAULT_BITS: 10 bits worker, 0 bits process, 12 bits sequence. -/
def DEFAULT_BITS : BitAllocation := { workerId := 10, processId := 0, sequence := 12 }

/-- resolveConfig: fill in defaults (snowflake.ts lines 92-99). -/
def resolveConfig (config : SnowflakeConfig) : ResolvedSnowflakeConfig :=
  { epoch := config.epoch.getD DEFAULT_EPOCH
    workerId := config.workerId
    processId := config.processId.getD 0
    bits := config.bits.getD DEFAULT_BITS }

/-- validateConfig (snowflake.ts lines 104-160): returns the first
configuration error, or `none` if the configuration is valid.  `now` is the
value `Date.now()` would return during construction.  The `1 << bits` shifts
are evaluated only after the bit widths are known to lie in `[0, 22]`, where
they equal `2 ^ width`. -/
def validateConfig (now : Int) (c : ResolvedSnowflakeConfig) : Option SnowflakeError :=
  if c.epoch > now then
    some (.ConfigurationError "Epoch cannot be in the future")
  else if c.bits.workerId < 0 ∨ c.bits.processId < 0 ∨ c.bits.sequence < 0 then
    some (.ConfigurationError "All bit allocations must be non-negative")
  else if c.bits.workerId = 0 ∧ c.bits.processId = 0 ∧ c.bits.sequence = 0 then
    some (.ConfigurationError "At least one bit allocation must be greater than 0")
  else if c.bits.workerId + c.bits.processId + c.bits.sequence > 22 then
    some (.ConfigurationError
      ("Total bits (" ++ toString (c.bits.workerId + c.bits.processId + c.bits.sequence) ++
       ") exceed maximum available bits (22). Got: workerId=" ++ toString c.bits.workerId ++
       ", processId=" ++ toString c.bits.processId ++
       ", sequence=" ++ toString c.bits.sequence))
  else if c.workerId < 0 then
    some (.ConfigurationError "Worker ID cannot be negative")
  else if c.processId < 0 then
    some (.ConfigurationError "Process ID cannot be negative")
  else if c.workerId > (if c.bits.workerId > 0 then 2 ^ c.bits.workerId.toNat - 1 else 0 : Int) then
    some (.ConfigurationError
      ("Worker ID (" ++ toString c.workerId ++ ") exceeds maximum value (" ++
       toString (if c.bits.workerId > 0 then 2 ^ c.bits.workerId.toNat - 1 else 0 : Int) ++
       ") for " ++ toString c.bits.workerId ++ " bits"))
  else if c.processId > (if c.bits.processId > 0 then 2 ^ c.bits.processId.toNat - 1 else 0 : Int) then
    some (.ConfigurationError
      ("Process ID (" ++ toString c.processId ++ ") exceeds maximum value (" ++
       toString (if c.bits.processId > 0 then 2 ^ c.bits.processId.toNat - 1 else 0 : Int) ++
       ") for " ++ toString c.bits.processId ++ " bits"))
  else
    none

/-- SnowflakeGenerator: the frozen configuration plus the derived constants
computed by the constructor (snowflake.ts lines 32-87). -/
structure SnowflakeGenerator where
  config : ResolvedSnowflakeConfig
  maxWorker : Nat
  maxProcess : Nat
  maxSequence : Nat
  workerShift : Nat
  processShift : Nat
  timestampShift : Nat
  maxTimestamp : Int
deriving DecidableEq

/-- The constructor (snowflake.ts lines 59-87): resolve, validate, then derive
masks and shifts.  After validation every width lies in `[0, 22]`, so the
32-bit JS shifts `1 << width` equal `2 ^ width`. -/
def mkGenerator (now : Int) (config : SnowflakeConfig) : Except SnowflakeError SnowflakeGenerator :=
  let c := resolveConfig config
  match validateConfig now c with
  | some e => .error e
  | none =>
      .ok { config := c
            maxSequence := if c.bits.sequence > 0 then 2 ^ c.bits.sequence.toNat - 1 else 0
            maxProcess := if c.bits.processId > 0 then 2 ^ c.bits.processId.toNat - 1 else 0
            maxWorker := if c.bits.workerId > 0 then 2 ^ c.bits.workerId.toNat - 1 else 0
            workerShift := c.bits.sequence.toNat
            processShift := c.bits.sequence.toNat + c.bits.workerId.toNat
            timestampShift := c.bits.sequence.toNat + c.bits.workerId.toNat + c.bits.processId.toNat
            maxTimestamp := (1 : Int) <<< (41 : Int) - 1 }

/-- composeId (snowflake.ts lines 330-344): BigInt shifts and ors. -/
def composeId (g : SnowflakeGenerator) (timestamp workerId processId sequence : Int) : Int :=
  let timestampBits := timestamp <<< (g.timestampShift : Int)
  let processIdBits := processId <<< (g.processShift : Int)
  let workerIdBits := workerId <<< (g.workerShift : Int)
  let sequenceBits := sequence
  Int.lor (Int.lor (Int.lor timestampBits processIdBits) workerIdBits) sequenceBits

/-- compose (snowflake.ts lines 228-260): validate the four components, then
pack the epoch-adjusted timestamp. -/
def compose (g : SnowflakeGenerator) (timestamp workerId processId sequence : Int) :
    Except SnowflakeError Int :=
  if timestamp < 0 then
    .error (.ConfigurationError "Timestamp cannot be negative")
  else if workerId < 0 ∨ workerId > (g.maxWorker : Int) then
    .error (.ConfigurationError ("Worker ID must be between 0 and " ++ toString g.maxWorker))
  else if processId < 0 ∨ processId > (g.maxProcess : Int) then
    .error (.ConfigurationError ("Process ID must be between 0 and " ++ toString g.maxProcess))
  else if sequence < 0 ∨ sequence > (g.maxSequence : Int) then
    .error (.ConfigurationError ("Sequence must be between 0 and " ++ toString g.maxSequence))
  else
    let adjustedTimestamp := timestamp - g.config.epoch
    if adjustedTimestamp > g.maxTimestamp then
      .error (.ConfigurationError "Timestamp exceeds maximum value")
    else
      .ok (composeId g adjustedTimestamp workerId processId sequence)

/-- decompose (snowflake.ts lines 281-307): reject negatives, then extract the
fields by shifting and masking.  `>>>` is the arithmetic shift of core
`Int.shiftRight`, matching BigInt `>>`. -/
def decompose (g : SnowflakeGenerator) (id : Int) : Except SnowflakeError SnowflakeComponents :=
  if id < 0 then
    .error (.InvalidIdError "ID cannot be negative")
  else
    let sequence := Int.land id (g.maxSequence : Int)
    let workerId := Int.land (id >>> g.workerShift) (g.maxWorker : Int)
    let processId := Int.land (id >>> g.processShift) (g.maxProcess : Int)
    let adjustedTimestamp := id >>> g.timestampShift
    .ok { timestamp := adjustedTimestamp + g.config.epoch
          workerId := workerId
          processId := processId
          sequence := sequence }

/-- getCurrentTimestamp (snowflake.ts lines 312-314): `Date.now() − epoch`,
with the `Date.now()` reading supplied by the environment. -/
def getCurrentTimestamp (g : SnowflakeGenerator) (now : Int) : Int :=
  now - g.config.epoch

/-- waitForNextMillisecond (snowflake.ts lines 319-325): poll the clock until
it reads strictly past `currentTimestamp`.  The loop consumes readings from
the list; `none` means the supplied readings were exhausted (the real loop
would still be spinning). -/
def waitForNextMillisecond (g : SnowflakeGenerator) (currentTimestamp : Int) :
    List Int → Option (Int × List Int)
  | [] => none
  | now :: clock =>
      let timestamp := getCurrentTimestamp g now
      if timestamp ≤ currentTimestamp then
        waitForNextMillisecond g currentTimestamp clock
      else
        some (timestamp, clock)

/-- The mutable per-instance state (snowflake.ts lines 42-43). -/
structure GeneratorState where
  sequence : Nat
  lastTimestamp : Int
deriving DecidableEq

/-- Initial state: `sequence = 0`, `lastTimestamp = -1`. -/
def initState : GeneratorState := { sequence := 0, lastTimestamp := -1 }

/-- Outcome of one `generate()` call: the returned id or thrown error together
with the instance state as the call ends, and the unconsumed clock readings.
`outOfClock` marks a run whose busy-wait outlived the supplied readings. -/
inductive GenResult where
  | ok (id : Int) (state : GeneratorState) (clock : List Int)
  | err (e : SnowflakeError) (state : GeneratorState) (clock : List Int)
  | outOfClock
deriving DecidableEq

/-- The state left behind by a completed (returned or thrown) call. -/
def GenResult.finalState : GenResult → Option (GeneratorState × List Int)
  | .ok _ st clock => some (st, clock)
  | .err _ st clock => some (st, clock)
  | .outOfClock => none

/-- Tail of generate (snowflake.ts lines 197-209): store the adopted
timestamp and sequence, check the 41-bit ceiling, and pack the id. -/
def generateTail (g : SnowflakeGenerator) (timestamp : Int) (sequence : Nat)
    (clock : List Int) : GenResult :=
  let st : GeneratorState := { sequence := sequence, lastTimestamp := timestamp }
  if timestamp > g.maxTimestamp then
    .err (.TimestampExhaustedError "Maximum timestamp exceeded") st clock
  else
    .ok (composeId g timestamp g.config.workerId g.config.processId (sequence : Int)) st clock

/-- generate (snowflake.ts lines 175-210): read the clock, handle regression,
same-millisecond sequencing and sequence overflow, then finish via
`generateTail`. -/
def generate (g : SnowflakeGenerator) (st : GeneratorState) : List Int → GenResult
  | [] => .outOfClock
  | now :: clock =>
      let timestamp := getCurrentTimestamp g now
      if timestamp < st.lastTimestamp then
        .err (.ClockBackwardsError
          ("Clock moved backwards. Refusing to generate id for " ++
           toString (st.lastTimestamp - timestamp) ++ "ms")) st clock
      else if timestamp = st.lastTimestamp then
        let sequence := (st.sequence + 1) &&& g.maxSequence
        if sequence = 0 then
          match waitForNextMillisecond g timestamp clock with
          | none => .outOfClock
          | some (t2, clock2) => generateTail g t2 sequence clock2
        else
          generateTail g timestamp sequence clock
      else
        generateTail g timestamp 0 clock

/-! ### Bitwise arithmetic helpers -/

theorem int_lor_ofNat_ofNat (m n : Nat) :
    Int.lor (Int.ofNat m) (Int.ofNat n) = Int.ofNat (m ||| n) := rfl

theorem int_lor_negSucc_ofNat (m n : Nat) :
    Int.lor (Int.negSucc m) (Int.ofNat n) = Int.negSucc (Nat.ldiff m n) := rfl

theorem nat_ldiff_all_ones {n c y : Nat} (hc : 0 < c) (hy : y < 2 ^ n) :
    Nat.ldiff (2 ^ n * c - 1) y = 2 ^ n * c - 1 - y := by
  have hpow : 0 < 2 ^ n := Nat.pos_pow_of_pos n (by norm_num)
  have hK : 2 ^ n * c - 1 = 2 ^ n * (c - 1) + (2 ^ n - 1) := by
    cases c with
    | zero => omega
    | succ c' => rw [Nat.mul_succ, Nat.succ_sub_one]; omega
  have hKy : 2 ^ n * c - 1 - y = 2 ^ n * (c - 1) + (2 ^ n - 1 - y) := by omega
  apply Nat.eq_of_testBit_eq
  intro j
  rw [Nat.testBit_ldiff, hKy, hK]
  have h1 : 2 ^ n - 1 < 2 ^ n := by omega
  have h2 : 2 ^ n - 1 - y < 2 ^ n := by omega
  rw [Nat.testBit_mul_pow_two_add _ h1, Nat.testBit_mul_pow_two_add _ h2]
  by_cases hj : j < n
  · have h3 : 2 ^ n - 1 - y = 2 ^ n - (y + 1) := by omega
    simp [hj, h3, Nat.testBit_two_pow_sub_succ hy]
  · have hyj : y < 2 ^ j := by
      calc y < 2 ^ n := hy
        _ ≤ 2 ^ j := Nat.pow_le_pow_right (by norm_num) (by omega)
    simp [hj, Nat.testBit_lt_two_pow hyj]

theorem int_lor_add {a x : Int} {n : Nat} (ha : ((2 ^ n : Nat) : Int) ∣ a)
    (hx : 0 ≤ x) (hxn : x < ((2 ^ n : Nat) : Int)) : Int.lor a x = a + x := by
  obtain ⟨y, rfl⟩ := Int.eq_ofNat_of_zero_le hx
  have hy : y < 2 ^ n := by exact_mod_cast hxn
  rcases Int.le_or_lt 0 a with hnn | hneg
  · obtain ⟨m, rfl⟩ := Int.eq_ofNat_of_zero_le hnn
    obtain ⟨c, hm⟩ : (2 ^ n : Nat) ∣ m := by exact_mod_cast ha
    have hlor : Int.lor (m : Int) (y : Int) = ((m ||| y : Nat) : Int) := rfl
    rw [hlor, hm, ← Nat.mul_add_lt_is_or hy c]
    push_cast
    ring
  · obtain ⟨m, rfl⟩ := Int.eq_negSucc_of_lt_zero hneg
    have ha' : ((2 ^ n : Nat) : Int) ∣ ((m + 1 : Nat) : Int) := by
      have h1 : Int.negSucc m = -((m + 1 : Nat) : Int) := by
        rw [Int.negSucc_eq]; push_cast; ring
      rw [h1] at ha
      exact (Int.dvd_neg).mp ha
    obtain ⟨c, hm⟩ : (2 ^ n : Nat) ∣ m + 1 := by exact_mod_cast ha'
    have hc : 0 < c := by
      rcases Nat.eq_zero_or_pos c with h | h
      · rw [h, Nat.mul_zero] at hm; omega
      · exact h
    have hlor : Int.lor (Int.negSucc m) (y : Int) = Int.negSucc (Nat.ldiff m y) := rfl
    have hmval : m = 2 ^ n * c - 1 := by omega
    have h2n : 2 ^ n ≤ 2 ^ n * c := by
      calc 2 ^ n = 2 ^ n * 1 := by ring
        _ ≤ 2 ^ n * c := Nat.mul_le_mul_left _ hc
    have hyn : y ≤ m := by omega
    have hld : Nat.ldiff m y = m - y := by
      rw [hmval, nat_ldiff_all_ones hc hy, ← hmval]
    rw [hlor, hld, Int.negSucc_eq, Int.negSucc_eq]
    push_cast [Nat.cast_sub hyn]
    ring

theorem int_shiftLeft_natCast (t : Int) (k : Nat) : t <<< (k : Int) = t * 2 ^ k := by
  rw [Int.shiftLeft_eq_mul_pow]
  push_cast
  ring

/-- The packed id is the positional sum of its fields: provided each of the
worker, process and sequence values fits in its allocated bit range, the
bitwise ors of `composeId` are exact additions.  The timestamp may be any
integer (including the negative values an epoch-misaligned call produces). -/
theorem composeId_eq (g : SnowflakeGenerator) {wb pb : Nat}
    (hP : g.processShift = g.workerShift + wb)
    (hT : g.timestampShift = g.processShift + pb)
    (t w p s : Int)
    (hw0 : 0 ≤ w) (hw1 : w < 2 ^ wb)
    (hp0 : 0 ≤ p) (hp1 : p < 2 ^ pb)
    (hs0 : 0 ≤ s) (hs1 : s < 2 ^ g.workerShift) :
    composeId g t w p s =
      t * 2 ^ g.timestampShift + p * 2 ^ g.processShift + w * 2 ^ g.workerShift + s := by
  have hpowW : (0 : Int) < 2 ^ g.workerShift := by positivity
  have h1 : Int.lor (t * 2 ^ g.timestampShift) (p * 2 ^ g.processShift)
      = t * 2 ^ g.timestampShift + p * 2 ^ g.processShift := by
    apply int_lor_add (n := g.timestampShift)
    · push_cast
      exact dvd_mul_left _ _
    · exact mul_nonneg hp0 (by positivity)
    · push_cast
      rw [hT, pow_add]
      calc p * 2 ^ g.processShift < 2 ^ pb * 2 ^ g.processShift :=
            mul_lt_mul_of_pos_right hp1 (by positivity)
        _ = 2 ^ g.processShift * 2 ^ pb := by ring
  have h2 : Int.lor (t * 2 ^ g.timestampShift + p * 2 ^ g.processShift) (w * 2 ^ g.workerShift)
      = t * 2 ^ g.timestampShift + p * 2 ^ g.processShift + w * 2 ^ g.workerShift := by
    apply int_lor_add (n := g.processShift)
    · push_cast
      apply dvd_add
      · apply Dvd.dvd.mul_left
        rw [hT, pow_add]
        exact dvd_mul_right _ _
      · exact dvd_mul_left _ _
    · exact mul_nonneg hw0 (by positivity)
    · push_cast
      rw [hP, pow_add]
      calc w * 2 ^ g.workerShift < 2 ^ wb * 2 ^ g.workerShift :=
            mul_lt_mul_of_pos_right hw1 (by positivity)
        _ = 2 ^ g.workerShift * 2 ^ wb := by ring
  have h3 : Int.lor (t * 2 ^ g.timestampShift + p * 2 ^ g.processShift + w * 2 ^ g.workerShift) s
      = t * 2 ^ g.timestampShift + p * 2 ^ g.processShift + w * 2 ^ g.workerShift + s := by
    apply int_lor_add (n := g.workerShift)
    · push_cast
      apply dvd_add
      apply dvd_add
      · apply Dvd.dvd.mul_left
        rw [hT, hP, pow_add, pow_add]
        exact Dvd.dvd.mul_right (dvd_mul_right _ _) _
      · apply Dvd.dvd.mul_left
        rw [hP, pow_add]
        exact dvd_mul_right _ _
      · exact dvd_mul_left _ _
    · exact hs0
    · push_cast
      exact hs1
  unfold composeId
  simp only [int_shiftLeft_natCast]
  simp only [h1, h2, h3]

theorem ifpow_eq (z : Int) : (if z > 0 then 2 ^ z.toNat - 1 else 0 : Nat) = 2 ^ z.toNat - 1 := by
  split
  · rfl
  · rename_i h
    have hz : z.toNat = 0 := Int.toNat_of_nonpos (le_of_not_lt h)
    simp [hz]

theorem ifpow_cast (z : Int) :
    (((if z > 0 then 2 ^ z.toNat - 1 else 0 : Nat)) : Int) =
      (if z > 0 then 2 ^ z.toNat - 1 else 0 : Int) := by
  split
  · have h1 : (1 : Nat) ≤ 2 ^ z.toNat := Nat.one_le_two_pow
    push_cast [h1]
    ring
  · simp

theorem one_shiftLeft_41 : (1 : Int) <<< (41 : Int) - 1 = 2 ^ 41 - 1 := by decide

set_option maxHeartbeats 1000000 in
/-- Everything the constructor guarantees about a successfully built
generator: the stored configuration, the derived shifts and maxima, and the
validated bounds on the configured worker and process ids. -/
theorem mkGenerator_facts {now : Int} {cfg : SnowflakeConfig} {g : SnowflakeGenerator}
    (h : mkGenerator now cfg = .ok g) :
    g.config = resolveConfig cfg ∧
    g.workerShift = g.config.bits.sequence.toNat ∧
    g.processShift = g.workerShift + g.config.bits.workerId.toNat ∧
    g.timestampShift = g.processShift + g.config.bits.processId.toNat ∧
    g.maxSequence = 2 ^ g.workerShift - 1 ∧
    g.maxWorker = 2 ^ g.config.bits.workerId.toNat - 1 ∧
    g.maxProcess = 2 ^ g.config.bits.processId.toNat - 1 ∧
    g.maxTimestamp = 2 ^ 41 - 1 ∧
    0 ≤ g.config.workerId ∧ g.config.workerId ≤ (g.maxWorker : Int) ∧
    0 ≤ g.config.processId ∧ g.config.processId ≤ (g.maxProcess : Int) := by
  simp only [mkGenerator] at h
  cases hv : validateConfig now (resolveConfig cfg) with
  | some e => rw [hv] at h; cases h
  | none =>
      rw [hv] at h
      simp only [Except.ok.injEq] at h
      subst h
      refine ⟨rfl, rfl, rfl, rfl, ?_, ?_, ?_, one_shiftLeft_41, ?_⟩
      · exact ifpow_eq _
      · exact ifpow_eq _
      · exact ifpow_eq _
      · dsimp only
        unfold validateConfig at hv
        rw [ifpow_cast, ifpow_cast]
        split_ifs at hv with h1 h2 h3 h4 h5 h6 h7 h8 <;>
          refine ⟨by omega, ?_, by omega, ?_⟩ <;> split <;> omega

/-! ### Sample configurations and generators used by concrete witnesses -/

/-- Configuration `{ workerId: 1, epoch: 0 }` with the default bit layout. -/
def cfg0 : SnowflakeConfig :=
  { epoch := some 0, workerId := 1, processId := none, bits := none }

/-- The generator built from `cfg0`. -/
def gen0 : SnowflakeGenerator :=
  { config := { epoch := 0, workerId := 1, processId := 0, bits := DEFAULT_BITS }
    maxWorker := 1023
    maxProcess := 0
    maxSequence := 4095
    workerShift := 12
    processShift := 22
    timestampShift := 22
    maxTimestamp := 2 ^ 41 - 1 }

/-- Configuration `{ workerId: 1 }`: default epoch and default bit layout. -/
def cfgDefault : SnowflakeConfig :=
  { epoch := none, workerId := 1, processId := none, bits := none }

/-- The generator built from `cfgDefault` (epoch 2020-01-01). -/
def genDefault : SnowflakeGenerator :=
  { config := { epoch := 1577836800000, workerId := 1, processId := 0, bits := DEFAULT_BITS }
    maxWorker := 1023
    maxProcess := 0
    maxSequence := 4095
    workerShift := 12
    processShift := 22
    timestampShift := 22
    maxTimestamp := 2 ^ 41 - 1 }

/-- Configuration with a 2-bit sequence field (as in the overflow test). -/
def cfgSmall : SnowflakeConfig :=
  { epoch := some 0, workerId := 1, processId := none
    bits := some { workerId := 10, processId := 0, sequence := 2 } }

/-- The generator built from `cfgSmall`: `maxSequence = 3`. -/
def genSmall : SnowflakeGenerator :=
  { config := { epoch := 0, workerId := 1, processId := 0
                bits := { workerId := 10, processId := 0, sequence := 2 } }
    maxWorker := 1023
    maxProcess := 0
    maxSequence := 3
    workerShift := 2
    processShift := 12
    timestampShift := 12
    maxTimestamp := 2 ^ 41 - 1 }

deriving instance DecidableEq for Except

example : mkGenerator 0 cfg0 = .ok gen0 := by decide
example : mkGenerator 1577836800000 cfgDefault = .ok genDefault := by decide
example : mkGenerator 0 cfgSmall = .ok genSmall := by decide

/-! ### Behaviour of the busy-wait and of generate -/

/-- The busy-wait returns the first clock reading strictly past `cur`,
skipping (consuming) every earlier reading, all of which were `≤ cur`. -/
theorem waitForNextMillisecond_spec (g : SnowflakeGenerator) (cur : Int) :
    ∀ (clock : List Int) (t2 : Int) (c2 : List Int),
      waitForNextMillisecond g cur clock = some (t2, c2) →
      ∃ skipped r, clock = skipped ++ r :: c2 ∧
        (∀ x ∈ skipped, getCurrentTimestamp g x ≤ cur) ∧
        getCurrentTimestamp g r = t2 ∧ cur < t2 := by
  intro clock
  induction clock with
  | nil => intro t2 c2 h; cases h
  | cons now rest ih =>
      intro t2 c2 h
      simp only [waitForNextMillisecond] at h
      split at h
      · rename_i hle
        obtain ⟨skipped, r, hclock, hskip, hval, hlt⟩ := ih _ _ h
        refine ⟨now :: skipped, r, by rw [hclock]; rfl, ?_, hval, hlt⟩
        intro x hx
        rcases List.mem_cons.mp hx with rfl | hx
        · exact hle
        · exact hskip x hx
      · rename_i hgt
        simp only [Option.some.injEq, Prod.mk.injEq] at h
        obtain ⟨h1, h2⟩ := h
        exact ⟨[], now, by simp [h2], by simp, h1, by omega⟩

/-- `generateTail` stores the adopted timestamp and sequence and either
reports exhaustion or returns the packed id. -/
theorem generateTail_ok {g : SnowflakeGenerator} {t : Int} {seq : Nat} {clock : List Int}
    {id : Int} {st' : GeneratorState} {rest : List Int}
    (h : generateTail g t seq clock = .ok id st' rest) :
    st' = { sequence := seq, lastTimestamp := t } ∧ rest = clock ∧ t ≤ g.maxTimestamp ∧
    id = composeId g t g.config.workerId g.config.processId (seq : Int) := by
  unfold generateTail at h
  split at h
  · cases h
  · rename_i hle
    simp only [GenResult.ok.injEq] at h
    obtain ⟨h1, h2, h3⟩ := h
    exact ⟨h2.symm, h3.symm, by omega, h1.symm⟩

/-- Both exits of `generateTail` leave the state `⟨seq, t⟩` behind. -/
theorem generateTail_finalState (g : SnowflakeGenerator) (t : Int) (seq : Nat)
    (clock : List Int) :
    (generateTail g t seq clock).finalState =
      some ({ sequence := seq, lastTimestamp := t }, clock) := by
  unfold generateTail
  split <;> rfl

/-- A successful `generate` call: the returned id packs the adopted timestamp
and sequence of the post state; the adopted timestamp respects the 41-bit
ceiling and never went backwards; the new sequence is masked into range; and
if the timestamp did not advance, the sequence was incremented (without
wrapping to 0). -/
theorem generate_ok_spec {g : SnowflakeGenerator} {st : GeneratorState} {clock : List Int}
    {id : Int} {st' : GeneratorState} {rest : List Int}
    (h : generate g st clock = .ok id st' rest) :
    id = composeId g st'.lastTimestamp g.config.workerId g.config.processId (st'.sequence : Int) ∧
    st'.lastTimestamp ≤ g.maxTimestamp ∧
    st.lastTimestamp ≤ st'.lastTimestamp ∧
    st'.sequence ≤ g.maxSequence ∧
    (st'.lastTimestamp = st.lastTimestamp →
      st'.sequence = (st.sequence + 1) &&& g.maxSequence ∧ st'.sequence ≠ 0) := by
  cases clock with
  | nil => cases h
  | cons now clock' =>
      simp only [generate] at h
      split at h
      · cases h
      · split at h
        · rename_i hlt heq
          by_cases hz : (st.sequence + 1) &&& g.maxSequence = 0
          · rw [if_pos hz] at h
            cases hw : waitForNextMillisecond g (getCurrentTimestamp g now) clock' with
            | none => rw [hw] at h; cases h
            | some v =>
                obtain ⟨t2, c2⟩ := v
                rw [hw] at h
                obtain ⟨hst, hrest, hmax, hid⟩ := generateTail_ok h
                obtain ⟨skipped, r, _, _, _, hgt⟩ := waitForNextMillisecond_spec g _ clock' _ _ hw
                subst hst
                refine ⟨hid, hmax, by simp; omega, by simp [hz], ?_⟩
                intro habs
                simp at habs
                omega
          · rw [if_neg hz] at h
            obtain ⟨hst, hrest, hmax, hid⟩ := generateTail_ok h
            subst hst
            refine ⟨hid, hmax, by simp; omega, ?_, ?_⟩
            · simpa using Nat.and_le_right
            · intro _
              exact ⟨rfl, hz⟩
        · rename_i hlt hne
          obtain ⟨hst, hrest, hmax, hid⟩ := generateTail_ok h
          subst hst
          refine ⟨hid, hmax, by simp; omega, by simp, ?_⟩
          intro habs
          simp at habs
          omega

/-- Whether a `generate` call returns an id or throws, the state it leaves
behind never has a smaller `lastTimestamp`, and its sequence is either masked
into range or (on the clock-backwards path) untouched. -/
theorem generate_finalState_spec {g : SnowflakeGenerator} {st : GeneratorState}
    {clock : List Int} {st' : GeneratorState} {rest : List Int}
    (h : (generate g st clock).finalState = some (st', rest)) :
    (st'.sequence ≤ g.maxSequence ∨ st'.sequence = st.sequence) ∧
    st.lastTimestamp ≤ st'.lastTimestamp := by
  cases clock with
  | nil => cases h
  | cons now clock' =>
      simp only [generate] at h
      split at h
      · simp only [GenResult.finalState, Option.some.injEq, Prod.mk.injEq] at h
        obtain ⟨rfl, -⟩ := h
        exact ⟨Or.inr rfl, le_refl _⟩
      · split at h
        · rename_i hlt heq
          by_cases hz : (st.sequence + 1) &&& g.maxSequence = 0
          · rw [if_pos hz] at h
            cases hw : waitForNextMillisecond g (getCurrentTimestamp g now) clock' with
            | none => rw [hw] at h; cases h
            | some v =>
                obtain ⟨t2, c2⟩ := v
                rw [hw] at h
                rw [generateTail_finalState] at h
                simp only [Option.some.injEq, Prod.mk.injEq] at h
                obtain ⟨rfl, -⟩ := h
                obtain ⟨skipped, r, _, _, _, hgt⟩ :=
                  waitForNextMillisecond_spec g _ clock' _ _ hw
                exact ⟨Or.inl (by simp [hz]), by simp; omega⟩
          · rw [if_neg hz] at h
            rw [generateTail_finalState] at h
            simp only [Option.some.injEq, Prod.mk.injEq] at h
            obtain ⟨rfl, -⟩ := h
            exact ⟨Or.inl (by simpa using Nat.and_le_right), by simp; omega⟩
        · rename_i hlt hne
          rw [generateTail_finalState] at h
          simp only [Option.some.injEq, Prod.mk.injEq] at h
          obtain ⟨rfl, -⟩ := h
          exact ⟨Or.inl (by simp), by simp; omega⟩

theorem int_land_ofNat (m n : Nat) :
    Int.land (Int.ofNat m) (Int.ofNat n) = Int.ofNat (m &&& n) := rfl

/-! ### Claim theorems -/

/-- C4: if the clock reading maps to an epoch-relative time strictly below
`lastTimestamp`, `generate` throws `ClockBackwardsError` whose message reports
the backward jump `lastTimestamp - t` in milliseconds, produces no id, and
leaves `lastTimestamp` and `sequence` exactly at their pre-call values. -/
theorem c4_clock_backwards (g : SnowflakeGenerator) (st : GeneratorState)
    (now : Int) (clock : List Int)
    (h : getCurrentTimestamp g now < st.lastTimestamp) :
    generate g st (now :: clock) =
      .err (.ClockBackwardsError
        ("Clock moved backwards. Refusing to generate id for " ++
         toString (st.lastTimestamp - getCurrentTimestamp g now) ++ "ms")) st clock := by
  simp only [generate]
  rw [if_pos h]

theorem c4_clock_backwards_witness :
    getCurrentTimestamp gen0 7 < ({ sequence := 2, lastTimestamp := 10 } : GeneratorState).lastTimestamp ∧
    generate gen0 { sequence := 2, lastTimestamp := 10 } [7, 99] =
      .err (.ClockBackwardsError "Clock moved backwards. Refusing to generate id for 3ms")
        { sequence := 2, lastTimestamp := 10 } [99] :=
  ⟨by decide,
   by rw [c4_clock_backwards gen0 { sequence := 2, lastTimestamp := 10 } 7 [99] (by decide)]; decide⟩

/-- C9: `decompose` throws `InvalidIdError` exactly on negative inputs; on any
nonnegative input (however large) it succeeds with `sequence ∈ [0, maxSequence]`,
`workerId ∈ [0, maxWorker]`, `processId ∈ [0, maxProcess]`.  In this embedding
`decompose` is a pure function of the frozen generator, so it touches no
mutable state. -/
theorem c9_decompose_total (g : SnowflakeGenerator) (id : Int) :
    (id < 0 → decompose g id = .error (.InvalidIdError "ID cannot be negative")) ∧
    (0 ≤ id → ∃ c, decompose g id = .ok c ∧
      0 ≤ c.sequence ∧ c.sequence ≤ (g.maxSequence : Int) ∧
      0 ≤ c.workerId ∧ c.workerId ≤ (g.maxWorker : Int) ∧
      0 ≤ c.processId ∧ c.processId ≤ (g.maxProcess : Int)) := by
  constructor
  · intro hneg
    unfold decompose
    rw [if_pos hneg]
  · intro hpos
    obtain ⟨N, rfl⟩ := Int.eq_ofNat_of_zero_le hpos
    have hde : decompose g (N : Int) = .ok
        { timestamp := ((N >>> g.timestampShift : Nat) : Int) + g.config.epoch
          workerId := (((N >>> g.workerShift) &&& g.maxWorker : Nat) : Int)
          processId := (((N >>> g.processShift) &&& g.maxProcess : Nat) : Int)
          sequence := ((N &&& g.maxSequence : Nat) : Int) } := by
      unfold decompose
      rw [if_neg (by exact not_lt.mpr (Int.natCast_nonneg N))]
      simp only [Int.natCast_shiftRight, int_land_ofNat]
      rfl
    refine ⟨_, hde, ?_, ?_, ?_, ?_, ?_, ?_⟩
    · exact Int.natCast_nonneg _
    · dsimp only
      exact_mod_cast Nat.and_le_right
    · exact Int.natCast_nonneg _
    · dsimp only
      exact_mod_cast Nat.and_le_right
    · exact Int.natCast_nonneg _
    · dsimp only
      exact_mod_cast Nat.and_le_right

theorem c9_decompose_total_witness :
    ((-5 : Int) < 0 ∧
      decompose gen0 (-5) = .error (.InvalidIdError "ID cannot be negative")) ∧
    ((0 : Int) ≤ 20975623 ∧ ∃ c, decompose gen0 20975623 = .ok c ∧
      0 ≤ c.sequence ∧ c.sequence ≤ (gen0.maxSequence : Int) ∧
      0 ≤ c.workerId ∧ c.workerId ≤ (gen0.maxWorker : Int) ∧
      0 ≤ c.processId ∧ c.processId ≤ (gen0.maxProcess : Int)) :=
  ⟨⟨by decide, (c9_decompose_total gen0 (-5)).1 (by decide)⟩,
   ⟨by decide, (c9_decompose_total gen0 20975623).2 (by decide)⟩⟩

/-- C10: the mutable state satisfies `sequence ∈ [0, maxSequence]` (sequence
is a natural number, so `0 ≤ sequence` holds by type) and
`lastTimestamp ≥ -1` at construction (`sequence = 0`, `lastTimestamp = -1`),
and every completed `generate` call — returning or throwing — preserves the
invariant and never decreases `lastTimestamp`. -/
theorem c10_state_invariant (g : SnowflakeGenerator) :
    (initState.sequence = 0 ∧ initState.lastTimestamp = -1) ∧
    (∀ (st : GeneratorState) (clock : List Int) (st' : GeneratorState) (rest : List Int),
      st.sequence ≤ g.maxSequence → -1 ≤ st.lastTimestamp →
      (generate g st clock).finalState = some (st', rest) →
      st'.sequence ≤ g.maxSequence ∧ -1 ≤ st'.lastTimestamp ∧
      st.lastTimestamp ≤ st'.lastTimestamp) := by
  refine ⟨⟨rfl, rfl⟩, ?_⟩
  intro st clock st' rest hseq hlast h
  obtain ⟨hs, hl⟩ := generate_finalState_spec h
  rcases hs with hs | hs
  · exact ⟨hs, by omega, hl⟩
  · exact ⟨by omega, by omega, hl⟩

theorem c10_state_invariant_witness :
    initState.sequence ≤ gen0.maxSequence ∧ -1 ≤ initState.lastTimestamp ∧
    (({ sequence := 0, lastTimestamp := 5 } : GeneratorState).sequence ≤ gen0.maxSequence ∧
     -1 ≤ ({ sequence := 0, lastTimestamp := 5 } : GeneratorState).lastTimestamp ∧
     initState.lastTimestamp ≤ ({ sequence := 0, lastTimestamp := 5 } : GeneratorState).lastTimestamp) :=
  ⟨by decide, by decide,
   (c10_state_invariant gen0).2 initState [5] { sequence := 0, lastTimestamp := 5 } []
     (by decide) (by decide) (by decide)⟩

/-- C8: `maxTimestamp` is `2^41 - 1`, and whenever the adopted epoch-relative
timestamp (fresh, same-millisecond incremented, or obtained from the
busy-wait) exceeds it, `generate` throws `TimestampExhaustedError` and
produces no id, with `lastTimestamp`/`sequence` already updated to the
adopted values at the moment of failure. -/
theorem c8_timestamp_exhausted {now0 : Int} {cfg : SnowflakeConfig} {g : SnowflakeGenerator}
    (hmk : mkGenerator now0 cfg = .ok g)
    (st : GeneratorState) (now : Int) (clock : List Int) :
    g.maxTimestamp = 2 ^ 41 - 1 ∧
    (st.lastTimestamp < getCurrentTimestamp g now →
      getCurrentTimestamp g now > g.maxTimestamp →
      generate g st (now :: clock) =
        .err (.TimestampExhaustedError "Maximum timestamp exceeded")
          { sequence := 0, lastTimestamp := getCurrentTimestamp g now } clock) ∧
    (getCurrentTimestamp g now = st.lastTimestamp →
      (st.sequence + 1) &&& g.maxSequence ≠ 0 →
      getCurrentTimestamp g now > g.maxTimestamp →
      generate g st (now :: clock) =
        .err (.TimestampExhaustedError "Maximum timestamp exceeded")
          { sequence := (st.sequence + 1) &&& g.maxSequence,
            lastTimestamp := getCurrentTimestamp g now } clock) ∧
    (getCurrentTimestamp g now = st.lastTimestamp →
      (st.sequence + 1) &&& g.maxSequence = 0 →
      ∀ t2 c2, waitForNextMillisecond g (getCurrentTimestamp g now) clock = some (t2, c2) →
        t2 > g.maxTimestamp →
        generate g st (now :: clock) =
          .err (.TimestampExhaustedError "Maximum timestamp exceeded")
            { sequence := 0, lastTimestamp := t2 } c2) := by
  refine ⟨(mkGenerator_facts hmk).2.2.2.2.2.2.2.1, ?_, ?_, ?_⟩
  · intro hlt hmax
    simp only [generate]
    rw [if_neg (by omega), if_neg (by omega)]
    unfold generateTail
    rw [if_pos hmax]
  · intro heq hz hmax
    simp only [generate]
    rw [if_neg (by omega), if_pos heq, if_neg hz]
    unfold generateTail
    rw [if_pos hmax]
  · intro heq hz t2 c2 hw hmax
    simp only [generate]
    rw [if_neg (by omega), if_pos heq, if_pos hz, hw, hz]
    dsimp only
    unfold generateTail
    rw [if_pos hmax]

theorem c8_timestamp_exhausted_witness :
    gen0.maxTimestamp = 2 ^ 41 - 1 ∧
    (({ sequence := 0, lastTimestamp := 5 } : GeneratorState).lastTimestamp <
        getCurrentTimestamp gen0 (2 ^ 41 + 7) ∧
      getCurrentTimestamp gen0 (2 ^ 41 + 7) > gen0.maxTimestamp ∧
      generate gen0 { sequence := 0, lastTimestamp := 5 } [2 ^ 41 + 7] =
        .err (.TimestampExhaustedError "Maximum timestamp exceeded")
          { sequence := 0, lastTimestamp := getCurrentTimestamp gen0 (2 ^ 41 + 7) } []) :=
  ⟨(c8_timestamp_exhausted (by decide : mkGenerator 0 cfg0 = .ok gen0)
      { sequence := 0, lastTimestamp := 5 } (2 ^ 41 + 7) []).1,
   by decide, by decide,
   (c8_timestamp_exhausted (by decide : mkGenerator 0 cfg0 = .ok gen0)
      { sequence := 0, lastTimestamp := 5 } (2 ^ 41 + 7) []).2.1 (by decide) (by decide)⟩

/-- C7: when the clock reading equals `lastTimestamp`, the sequence becomes
`(sequence + 1) &&& maxSequence`; if that wraps to 0 the generator polls the
clock, skipping readings `≤ t`, adopts the first reading strictly past `t`
with sequence 0; and when the reading exceeds `lastTimestamp` the sequence
resets to 0 and the reading is adopted.  On success the returned id packs the
adopted timestamp and sequence. -/
theorem c7_same_millisecond (g : SnowflakeGenerator) (st : GeneratorState)
    (now : Int) (clock : List Int) :
    (getCurrentTimestamp g now = st.lastTimestamp →
      (st.sequence + 1) &&& g.maxSequence ≠ 0 →
      (generate g st (now :: clock)).finalState =
        some ({ sequence := (st.sequence + 1) &&& g.maxSequence,
                lastTimestamp := getCurrentTimestamp g now }, clock)) ∧
    (getCurrentTimestamp g now = st.lastTimestamp →
      (st.sequence + 1) &&& g.maxSequence = 0 →
      ∀ t2 c2, waitForNextMillisecond g (getCurrentTimestamp g now) clock = some (t2, c2) →
        getCurrentTimestamp g now < t2 ∧
        (∃ skipped r, clock = skipped ++ r :: c2 ∧
          (∀ x ∈ skipped, getCurrentTimestamp g x ≤ getCurrentTimestamp g now) ∧
          getCurrentTimestamp g r = t2) ∧
        (generate g st (now :: clock)).finalState =
          some ({ sequence := 0, lastTimestamp := t2 }, c2)) ∧
    (st.lastTimestamp < getCurrentTimestamp g now →
      (generate g st (now :: clock)).finalState =
        some ({ sequence := 0, lastTimestamp := getCurrentTimestamp g now }, clock)) ∧
    (∀ id st' rest, generate g st (now :: clock) = .ok id st' rest →
      id = composeId g st'.lastTimestamp g.config.workerId g.config.processId
        (st'.sequence : Int)) := by
  refine ⟨?_, ?_, ?_, ?_⟩
  · intro heq hz
    simp only [generate]
    rw [if_neg (by omega), if_pos heq, if_neg hz, generateTail_finalState]
  · intro heq hz t2 c2 hw
    obtain ⟨skipped, r, hsplit, hskip, hval, hlt⟩ :=
      waitForNextMillisecond_spec g _ clock _ _ hw
    refine ⟨hlt, ⟨skipped, r, hsplit, hskip, hval⟩, ?_⟩
    simp only [generate]
    rw [if_neg (by omega), if_pos heq, if_pos hz, hw, hz, generateTail_finalState]
  · intro hlt
    simp only [generate]
    rw [if_neg (by omega), if_neg (by omega), generateTail_finalState]
  · intro id st' rest h
    exact (generate_ok_spec h).1

theorem c7_same_millisecond_witness :
    getCurrentTimestamp genSmall 5 <
        ({ sequence := 3, lastTimestamp := 5 } : GeneratorState).lastTimestamp + 1 ∧
    (getCurrentTimestamp genSmall 5 < 7 ∧
      (∃ skipped r, [5, 7] = skipped ++ r :: ([] : List Int) ∧
        (∀ x ∈ skipped, getCurrentTimestamp genSmall x ≤ getCurrentTimestamp genSmall 5) ∧
        getCurrentTimestamp genSmall r = 7) ∧
      (generate genSmall { sequence := 3, lastTimestamp := 5 } [5, 5, 7]).finalState =
        some ({ sequence := 0, lastTimestamp := 7 }, [])) :=
  ⟨by decide,
   (c7_same_millisecond genSmall { sequence := 3, lastTimestamp := 5 } 5 [5, 7]).2.1
     (by decide) (by decide) 7 [] (by decide)⟩

theorem seq_incr {s n : Nat} (hs : s ≤ 2 ^ n - 1) (hne : (s + 1) &&& (2 ^ n - 1) ≠ 0) :
    (s + 1) &&& (2 ^ n - 1) = s + 1 := by
  rw [Nat.and_pow_two_sub_one_eq_mod] at hne ⊢
  have hp : 0 < 2 ^ n := Nat.pos_pow_of_pos n (by norm_num)
  rcases Nat.lt_or_ge (s + 1) (2 ^ n) with h | h
  · exact Nat.mod_eq_of_lt h
  · have hx : s + 1 = 2 ^ n := by omega
    exact absurd (by rw [hx]; exact Nat.mod_self _) hne

/-- C2: two successive `generate` calls on one instance that both return —
under a non-regressing clock (every reading available to the second call at
least every reading of the first) — return strictly increasing ids. -/
theorem c2_monotonic {now0 : Int} {cfg : SnowflakeConfig} {g : SnowflakeGenerator}
    (hmk : mkGenerator now0 cfg = .ok g)
    {st0 st1 st2 : GeneratorState} {clock1 clock2 rest1 rest2 : List Int} {id1 id2 : Int}
    (hclock : ∀ x ∈ clock2, ∀ y ∈ clock1, y ≤ x)
    (h1 : generate g st0 clock1 = .ok id1 st1 rest1)
    (h2 : generate g st1 clock2 = .ok id2 st2 rest2) :
    id1 < id2 := by
  obtain ⟨-, hWS, hPS, hTS, hmseq, hmw, hmp, -, hw0, hw1, hp0, hp1⟩ := mkGenerator_facts hmk
  obtain ⟨hid1, hmax1, hle1, hseq1, -⟩ := generate_ok_spec h1
  obtain ⟨hid2, hmax2, hle2, hseq2, heq2⟩ := generate_ok_spec h2
  have hcastw : ((2 ^ g.config.bits.workerId.toNat - 1 : Nat) : Int) =
      2 ^ g.config.bits.workerId.toNat - 1 := by
    rw [Nat.cast_sub Nat.one_le_two_pow]
    push_cast
    ring
  have hcastp : ((2 ^ g.config.bits.processId.toNat - 1 : Nat) : Int) =
      2 ^ g.config.bits.processId.toNat - 1 := by
    rw [Nat.cast_sub Nat.one_le_two_pow]
    push_cast
    ring
  have hwlt : g.config.workerId < 2 ^ g.config.bits.workerId.toNat := by
    rw [hmw, hcastw] at hw1
    omega
  have hplt : g.config.processId < 2 ^ g.config.bits.processId.toNat := by
    rw [hmp, hcastp] at hp1
    omega
  have hs1n : st1.sequence < 2 ^ g.workerShift := by
    rw [hmseq] at hseq1
    have := Nat.one_le_two_pow (n := g.workerShift)
    omega
  have hs2n : st2.sequence < 2 ^ g.workerShift := by
    rw [hmseq] at hseq2
    have := Nat.one_le_two_pow (n := g.workerShift)
    omega
  have hs1lt : ((st1.sequence : Int)) < 2 ^ g.workerShift := by exact_mod_cast hs1n
  have hs2lt : ((st2.sequence : Int)) < 2 ^ g.workerShift := by exact_mod_cast hs2n
  have hC1 : id1 = st1.lastTimestamp * 2 ^ g.timestampShift +
      g.config.processId * 2 ^ g.processShift +
      g.config.workerId * 2 ^ g.workerShift + (st1.sequence : Int) := by
    rw [hid1]
    exact composeId_eq g hPS hTS _ _ _ _ hw0 hwlt hp0 hplt (Int.natCast_nonneg _) hs1lt
  have hC2 : id2 = st2.lastTimestamp * 2 ^ g.timestampShift +
      g.config.processId * 2 ^ g.processShift +
      g.config.workerId * 2 ^ g.workerShift + (st2.sequence : Int) := by
    rw [hid2]
    exact composeId_eq g hPS hTS _ _ _ _ hw0 hwlt hp0 hplt (Int.natCast_nonneg _) hs2lt
  by_cases hts : st2.lastTimestamp = st1.lastTimestamp
  · obtain ⟨hs2eq, hs2ne⟩ := heq2 hts
    have hne' : (st1.sequence + 1) &&& g.maxSequence ≠ 0 := by
      rw [← hs2eq]
      exact hs2ne
    have hmask : (st1.sequence + 1) &&& g.maxSequence = st1.sequence + 1 := by
      rw [hmseq] at hne' hseq1 ⊢
      exact seq_incr hseq1 hne'
    have hs2v : st2.sequence = st1.sequence + 1 := by rw [hs2eq, hmask]
    rw [hC1, hC2, hts, hs2v]
    push_cast
    omega
  · have hlt : st1.lastTimestamp < st2.lastTimestamp := lt_of_le_of_ne hle2 (Ne.symm hts)
    have hA : (0 : Int) < 2 ^ g.timestampShift := by positivity
    have hWA : (2 : Int) ^ g.workerShift ≤ 2 ^ g.timestampShift := by
      apply pow_le_pow_right₀ (by norm_num)
      omega
    have hstep : st1.lastTimestamp * 2 ^ g.timestampShift + 2 ^ g.timestampShift ≤
        st2.lastTimestamp * 2 ^ g.timestampShift := by
      have h' : (st1.lastTimestamp + 1) * 2 ^ g.timestampShift ≤
          st2.lastTimestamp * 2 ^ g.timestampShift :=
        mul_le_mul_of_nonneg_right (by omega) (le_of_lt hA)
      rw [add_mul, one_mul] at h'
      exact h'
    have hs2nn : (0 : Int) ≤ (st2.sequence : Int) := Int.natCast_nonneg _
    rw [hC1, hC2]
    linarith [hs1lt, hstep, hWA, hs2nn]

theorem c2_monotonic_witness :
    (∀ x ∈ ([6] : List Int), ∀ y ∈ ([5] : List Int), y ≤ x) ∧
    generate gen0 initState [5] = .ok 20975616 { sequence := 0, lastTimestamp := 5 } [] ∧
    generate gen0 { sequence := 0, lastTimestamp := 5 } [6] =
      .ok 25169920 { sequence := 0, lastTimestamp := 6 } [] ∧
    (20975616 : Int) < 25169920 :=
  ⟨by decide, by decide, by decide,
   c2_monotonic (by decide : mkGenerator 0 cfg0 = .ok gen0) (by decide)
     (by decide : generate gen0 initState [5] = .ok 20975616 { sequence := 0, lastTimestamp := 5 } [])
     (by decide : generate gen0 { sequence := 0, lastTimestamp := 5 } [6] =
        .ok 25169920 { sequence := 0, lastTimestamp := 6 } [])⟩

/-- C5: `compose` fails with a `ConfigurationError` naming the offending
field exactly when `timestamp < 0`, `workerId ∉ [0, maxWorker]`,
`processId ∉ [0, maxProcess]`, `sequence ∉ [0, maxSequence]`, or
`timestamp - epoch > maxTimestamp` (checked in that order); otherwise it
returns `((timestamp - epoch) <<< timestampShift) ||| (processId <<<
processShift) ||| (workerId <<< workerShift) ||| sequence`, which equals the
exact (arbitrary-precision) positional sum of the four fields. -/
theorem c5_compose_spec {now0 : Int} {cfg : SnowflakeConfig} {g : SnowflakeGenerator}
    (hmk : mkGenerator now0 cfg = .ok g) (t w p s : Int) :
    ((∃ m, compose g t w p s = .error (.ConfigurationError m)) ↔
      (t < 0 ∨ w < 0 ∨ w > (g.maxWorker : Int) ∨ p < 0 ∨ p > (g.maxProcess : Int) ∨
       s < 0 ∨ s > (g.maxSequence : Int) ∨ t - g.config.epoch > g.maxTimestamp)) ∧
    (t < 0 →
      compose g t w p s = .error (.ConfigurationError "Timestamp cannot be negative")) ∧
    (¬ t < 0 → (w < 0 ∨ w > (g.maxWorker : Int)) →
      compose g t w p s = .error (.ConfigurationError
        ("Worker ID must be between 0 and " ++ toString g.maxWorker))) ∧
    (¬ t < 0 → ¬(w < 0 ∨ w > (g.maxWorker : Int)) → (p < 0 ∨ p > (g.maxProcess : Int)) →
      compose g t w p s = .error (.ConfigurationError
        ("Process ID must be between 0 and " ++ toString g.maxProcess))) ∧
    (¬ t < 0 → ¬(w < 0 ∨ w > (g.maxWorker : Int)) → ¬(p < 0 ∨ p > (g.maxProcess : Int)) →
      (s < 0 ∨ s > (g.maxSequence : Int)) →
      compose g t w p s = .error (.ConfigurationError
        ("Sequence must be between 0 and " ++ toString g.maxSequence))) ∧
    (¬ t < 0 → ¬(w < 0 ∨ w > (g.maxWorker : Int)) → ¬(p < 0 ∨ p > (g.maxProcess : Int)) →
      ¬(s < 0 ∨ s > (g.maxSequence : Int)) → t - g.config.epoch > g.maxTimestamp →
      compose g t w p s = .error (.ConfigurationError "Timestamp exceeds maximum value")) ∧
    (∀ v, compose g t w p s = .ok v →
      v = Int.lor (Int.lor (Int.lor ((t - g.config.epoch) <<< (g.timestampShift : Int))
            (p <<< (g.processShift : Int))) (w <<< (g.workerShift : Int))) s ∧
      v = (t - g.config.epoch) * 2 ^ g.timestampShift + p * 2 ^ g.processShift +
          w * 2 ^ g.workerShift + s) := by
  have herr1 : t < 0 →
      compose g t w p s = .error (.ConfigurationError "Timestamp cannot be negative") := by
    intro h1
    unfold compose
    rw [if_pos h1]
  have herr2 : ¬ t < 0 → (w < 0 ∨ w > (g.maxWorker : Int)) →
      compose g t w p s = .error (.ConfigurationError
        ("Worker ID must be between 0 and " ++ toString g.maxWorker)) := by
    intro h1 h2
    unfold compose
    rw [if_neg h1, if_pos h2]
  have herr3 : ¬ t < 0 → ¬(w < 0 ∨ w > (g.maxWorker : Int)) →
      (p < 0 ∨ p > (g.maxProcess : Int)) →
      compose g t w p s = .error (.ConfigurationError
        ("Process ID must be between 0 and " ++ toString g.maxProcess)) := by
    intro h1 h2 h3
    unfold compose
    rw [if_neg h1, if_neg h2, if_pos h3]
  have herr4 : ¬ t < 0 → ¬(w < 0 ∨ w > (g.maxWorker : Int)) →
      ¬(p < 0 ∨ p > (g.maxProcess : Int)) → (s < 0 ∨ s > (g.maxSequence : Int)) →
      compose g t w p s = .error (.ConfigurationError
        ("Sequence must be between 0 and " ++ toString g.maxSequence)) := by
    intro h1 h2 h3 h4
    unfold compose
    rw [if_neg h1, if_neg h2, if_neg h3, if_pos h4]
  have herr5 : ¬ t < 0 → ¬(w < 0 ∨ w > (g.maxWorker : Int)) →
      ¬(p < 0 ∨ p > (g.maxProcess : Int)) → ¬(s < 0 ∨ s > (g.maxSequence : Int)) →
      t - g.config.epoch > g.maxTimestamp →
      compose g t w p s = .error (.ConfigurationError "Timestamp exceeds maximum value") := by
    intro h1 h2 h3 h4 h5
    unfold compose
    rw [if_neg h1, if_neg h2, if_neg h3, if_neg h4]
    dsimp only
    rw [if_pos h5]
  have hok : ¬ t < 0 → ¬(w < 0 ∨ w > (g.maxWorker : Int)) →
      ¬(p < 0 ∨ p > (g.maxProcess : Int)) → ¬(s < 0 ∨ s > (g.maxSequence : Int)) →
      ¬ t - g.config.epoch > g.maxTimestamp →
      compose g t w p s = .ok (composeId g (t - g.config.epoch) w p s) := by
    intro h1 h2 h3 h4 h5
    unfold compose
    rw [if_neg h1, if_neg h2, if_neg h3, if_neg h4]
    dsimp only
    rw [if_neg h5]
  refine ⟨?_, herr1, herr2, herr3, herr4, herr5, ?_⟩
  · constructor
    · rintro ⟨m, hm⟩
      by_contra hnot
      push_neg at hnot
      obtain ⟨n1, n2, n3, n4, n5, n6, n7, n8⟩ := hnot
      rw [hok (by omega) (by omega) (by omega) (by omega) (by omega)] at hm
      cases hm
    · intro hdisj
      by_cases h1 : t < 0
      · exact ⟨_, herr1 h1⟩
      by_cases h2 : w < 0 ∨ w > (g.maxWorker : Int)
      · exact ⟨_, herr2 h1 h2⟩
      by_cases h3 : p < 0 ∨ p > (g.maxProcess : Int)
      · exact ⟨_, herr3 h1 h2 h3⟩
      by_cases h4 : s < 0 ∨ s > (g.maxSequence : Int)
      · exact ⟨_, herr4 h1 h2 h3 h4⟩
      have h5 : t - g.config.epoch > g.maxTimestamp := by tauto
      exact ⟨_, herr5 h1 h2 h3 h4 h5⟩
  · intro v hv
    by_cases h1 : t < 0
    · rw [herr1 h1] at hv; cases hv
    by_cases h2 : w < 0 ∨ w > (g.maxWorker : Int)
    · rw [herr2 h1 h2] at hv; cases hv
    by_cases h3 : p < 0 ∨ p > (g.maxProcess : Int)
    · rw [herr3 h1 h2 h3] at hv; cases hv
    by_cases h4 : s < 0 ∨ s > (g.maxSequence : Int)
    · rw [herr4 h1 h2 h3 h4] at hv; cases hv
    by_cases h5 : t - g.config.epoch > g.maxTimestamp
    · rw [herr5 h1 h2 h3 h4 h5] at hv; cases hv
    rw [hok h1 h2 h3 h4 h5] at hv
    obtain rfl : composeId g (t - g.config.epoch) w p s = v := by
      cases hv
      rfl
    constructor
    · rfl
    · obtain ⟨-, hWS, hPS, hTS, hmseq, hmw, hmp, -, -, -, -, -⟩ := mkGenerator_facts hmk
      push_neg at h2 h3 h4
      have hcastw : ((2 ^ g.config.bits.workerId.toNat - 1 : Nat) : Int) =
          2 ^ g.config.bits.workerId.toNat - 1 := by
        rw [Nat.cast_sub Nat.one_le_two_pow]
        push_cast
        ring
      have hcastp : ((2 ^ g.config.bits.processId.toNat - 1 : Nat) : Int) =
          2 ^ g.config.bits.processId.toNat - 1 := by
        rw [Nat.cast_sub Nat.one_le_two_pow]
        push_cast
        ring
      have hcasts : ((2 ^ g.workerShift - 1 : Nat) : Int) = 2 ^ g.workerShift - 1 := by
        rw [Nat.cast_sub Nat.one_le_two_pow]
        push_cast
        ring
      apply composeId_eq g hPS hTS
      · omega
      · rw [hmw, hcastw] at h2
        omega
      · omega
      · rw [hmp, hcastp] at h3
        omega
      · omega
      · rw [hmseq, hcasts] at h4
        omega

theorem c5_compose_spec_witness :
    compose gen0 5 (-1) 0 0 =
      .error (.ConfigurationError ("Worker ID must be between 0 and " ++ toString gen0.maxWorker)) ∧
    (∀ v, compose gen0 5 1 0 7 = .ok v →
      v = Int.lor (Int.lor (Int.lor ((5 - gen0.config.epoch) <<< (gen0.timestampShift : Int))
            ((0 : Int) <<< (gen0.processShift : Int))) ((1 : Int) <<< (gen0.workerShift : Int))) 7 ∧
      v = (5 - gen0.config.epoch) * 2 ^ gen0.timestampShift + 0 * 2 ^ gen0.processShift +
          1 * 2 ^ gen0.workerShift + 7) :=
  ⟨(c5_compose_spec (by decide : mkGenerator 0 cfg0 = .ok gen0) 5 (-1) 0 0).2.2.1
     (by decide) (by decide),
   (c5_compose_spec (by decide : mkGenerator 0 cfg0 = .ok gen0) 5 1 0 7).2.2.2.2.2.2⟩

theorem mkGenerator_error_iff (now : Int) (cfg : SnowflakeConfig) (e : SnowflakeError) :
    mkGenerator now cfg = .error e ↔ validateConfig now (resolveConfig cfg) = some e := by
  simp only [mkGenerator]
  cases hv : validateConfig now (resolveConfig cfg) with
  | some e' => simp
  | none => simp

theorem mkGenerator_ok_iff (now : Int) (cfg : SnowflakeConfig) :
    (∃ gg, mkGenerator now cfg = .ok gg) ↔
      validateConfig now (resolveConfig cfg) = none := by
  simp only [mkGenerator]
  cases hv : validateConfig now (resolveConfig cfg) with
  | some e' => simp
  | none => simp

set_option maxHeartbeats 1000000 in
theorem validateConfig_none_iff (now : Int) (c : ResolvedSnowflakeConfig) :
    validateConfig now c = none ↔
      ¬(c.epoch > now) ∧
      ¬(c.bits.workerId < 0 ∨ c.bits.processId < 0 ∨ c.bits.sequence < 0) ∧
      ¬(c.bits.workerId = 0 ∧ c.bits.processId = 0 ∧ c.bits.sequence = 0) ∧
      ¬(c.bits.workerId + c.bits.processId + c.bits.sequence > 22) ∧
      ¬(c.workerId < 0) ∧ ¬(c.processId < 0) ∧
      ¬(c.workerId > (if c.bits.workerId > 0 then 2 ^ c.bits.workerId.toNat - 1 else 0 : Int)) ∧
      ¬(c.processId > (if c.bits.processId > 0 then 2 ^ c.bits.processId.toNat - 1 else 0 : Int)) := by
  unfold validateConfig
  split_ifs with h1 h2 h3 h4 h5 h6 h7 h8 <;> simp_all

set_option maxHeartbeats 2000000 in
/-- C6: construction fails with a `ConfigurationError` exactly when one of
the six constraints is violated, checks run in the stated order (future
epoch; negative width; all-zero widths; width sum over 22 — with the sum and
the three widths in the message; negative workerId/processId; workerId or
processId above its maximum), and each check produces its own diagnostic
(shown literally below). -/
theorem c6_construction_validation (now : Int) (cfg : SnowflakeConfig) :
    ((∃ gg, mkGenerator now cfg = .ok gg) ↔
      ¬((resolveConfig cfg).epoch > now ∨
        ((resolveConfig cfg).bits.workerId < 0 ∨ (resolveConfig cfg).bits.processId < 0 ∨
          (resolveConfig cfg).bits.sequence < 0) ∨
        ((resolveConfig cfg).bits.workerId = 0 ∧ (resolveConfig cfg).bits.processId = 0 ∧
          (resolveConfig cfg).bits.sequence = 0) ∨
        ((resolveConfig cfg).bits.workerId + (resolveConfig cfg).bits.processId +
          (resolveConfig cfg).bits.sequence > 22) ∨
        (resolveConfig cfg).workerId < 0 ∨ (resolveConfig cfg).processId < 0 ∨
        (resolveConfig cfg).workerId >
          (if (resolveConfig cfg).bits.workerId > 0 then
            2 ^ (resolveConfig cfg).bits.workerId.toNat - 1 else 0 : Int) ∨
        (resolveConfig cfg).processId >
          (if (resolveConfig cfg).bits.processId > 0 then
            2 ^ (resolveConfig cfg).bits.processId.toNat - 1 else 0 : Int))) ∧
    ((resolveConfig cfg).epoch > now →
      mkGenerator now cfg = .error (.ConfigurationError "Epoch cannot be in the future")) ∧
    (¬(resolveConfig cfg).epoch > now →
      ((resolveConfig cfg).bits.workerId < 0 ∨ (resolveConfig cfg).bits.processId < 0 ∨
        (resolveConfig cfg).bits.sequence < 0) →
      mkGenerator now cfg = .error (.ConfigurationError
        "All bit allocations must be non-negative")) ∧
    (¬(resolveConfig cfg).epoch > now →
      ¬((resolveConfig cfg).bits.workerId < 0 ∨ (resolveConfig cfg).bits.processId < 0 ∨
        (resolveConfig cfg).bits.sequence < 0) →
      ((resolveConfig cfg).bits.workerId = 0 ∧ (resolveConfig cfg).bits.processId = 0 ∧
        (resolveConfig cfg).bits.sequence = 0) →
      mkGenerator now cfg = .error (.ConfigurationError
        "At least one bit allocation must be greater than 0")) ∧
    (¬(resolveConfig cfg).epoch > now →
      ¬((resolveConfig cfg).bits.workerId < 0 ∨ (resolveConfig cfg).bits.processId < 0 ∨
        (resolveConfig cfg).bits.sequence < 0) →
      ¬((resolveConfig cfg).bits.workerId = 0 ∧ (resolveConfig cfg).bits.processId = 0 ∧
        (resolveConfig cfg).bits.sequence = 0) →
      (resolveConfig cfg).bits.workerId + (resolveConfig cfg).bits.processId +
        (resolveConfig cfg).bits.sequence > 22 →
      mkGenerator now cfg = .error (.ConfigurationError
        ("Total bits (" ++
         toString ((resolveConfig cfg).bits.workerId + (resolveConfig cfg).bits.processId +
           (resolveConfig cfg).bits.sequence) ++
         ") exceed maximum available bits (22). Got: workerId=" ++
         toString (resolveConfig cfg).bits.workerId ++
         ", processId=" ++ toString (resolveConfig cfg).bits.processId ++
         ", sequence=" ++ toString (resolveConfig cfg).bits.sequence))) ∧
    (¬(resolveConfig cfg).epoch > now →
      ¬((resolveConfig cfg).bits.workerId < 0 ∨ (resolveConfig cfg).bits.processId < 0 ∨
        (resolveConfig cfg).bits.sequence < 0) →
      ¬((resolveConfig cfg).bits.workerId = 0 ∧ (resolveConfig cfg).bits.processId = 0 ∧
        (resolveConfig cfg).bits.sequence = 0) →
      ¬((resolveConfig cfg).bits.workerId + (resolveConfig cfg).bits.processId +
        (resolveConfig cfg).bits.sequence > 22) →
      ((resolveConfig cfg).workerId < 0 →
        mkGenerator now cfg = .error (.ConfigurationError "Worker ID cannot be negative")) ∧
      (¬(resolveConfig cfg).workerId < 0 → (resolveConfig cfg).processId < 0 →
        mkGenerator now cfg = .error (.ConfigurationError "Process ID cannot be negative")) ∧
      (¬(resolveConfig cfg).workerId < 0 → ¬(resolveConfig cfg).processId < 0 →
        (resolveConfig cfg).workerId >
          (if (resolveConfig cfg).bits.workerId > 0 then
            2 ^ (resolveConfig cfg).bits.workerId.toNat - 1 else 0 : Int) →
        mkGenerator now cfg = .error (.ConfigurationError
          ("Worker ID (" ++ toString (resolveConfig cfg).workerId ++
           ") exceeds maximum value (" ++
           toString (if (resolveConfig cfg).bits.workerId > 0 then
             2 ^ (resolveConfig cfg).bits.workerId.toNat - 1 else 0 : Int) ++
           ") for " ++ toString (resolveConfig cfg).bits.workerId ++ " bits"))) ∧
      (¬(resolveConfig cfg).workerId < 0 → ¬(resolveConfig cfg).processId < 0 →
        ¬((resolveConfig cfg).workerId >
          (if (resolveConfig cfg).bits.workerId > 0 then
            2 ^ (resolveConfig cfg).bits.workerId.toNat - 1 else 0 : Int)) →
        (resolveConfig cfg).processId >
          (if (resolveConfig cfg).bits.processId > 0 then
            2 ^ (resolveConfig cfg).bits.processId.toNat - 1 else 0 : Int) →
        mkGenerator now cfg = .error (.ConfigurationError
          ("Process ID (" ++ toString (resolveConfig cfg).processId ++
           ") exceeds maximum value (" ++
           toString (if (resolveConfig cfg).bits.processId > 0 then
             2 ^ (resolveConfig cfg).bits.processId.toNat - 1 else 0 : Int) ++
           ") for " ++ toString (resolveConfig cfg).bits.processId ++ " bits")))) ∧
    (∀ e, mkGenerator now cfg = .error e → ∃ m, e = .ConfigurationError m) := by
  refine ⟨?_, ?_, ?_, ?_, ?_, ?_, ?_⟩
  · rw [mkGenerator_ok_iff, validateConfig_none_iff]
    tauto
  · intro h1
    rw [mkGenerator_error_iff]
    unfold validateConfig
    rw [if_pos h1]
  · intro h1 h2
    rw [mkGenerator_error_iff]
    unfold validateConfig
    rw [if_neg h1, if_pos h2]
  · intro h1 h2 h3
    rw [mkGenerator_error_iff]
    unfold validateConfig
    rw [if_neg h1, if_neg h2, if_pos h3]
  · intro h1 h2 h3 h4
    rw [mkGenerator_error_iff]
    unfold validateConfig
    rw [if_neg h1, if_neg h2, if_neg h3, if_pos h4]
  · intro h1 h2 h3 h4
    refine ⟨?_, ?_, ?_, ?_⟩
    · intro h5
      rw [mkGenerator_error_iff]
      unfold validateConfig
      rw [if_neg h1, if_neg h2, if_neg h3, if_neg h4, if_pos h5]
    · intro h5 h6
      rw [mkGenerator_error_iff]
      unfold validateConfig
      rw [if_neg h1, if_neg h2, if_neg h3, if_neg h4, if_neg h5, if_pos h6]
    · intro h5 h6 h7
      rw [mkGenerator_error_iff]
      unfold validateConfig
      rw [if_neg h1, if_neg h2, if_neg h3, if_neg h4, if_neg h5, if_neg h6, if_pos h7]
    · intro h5 h6 h7 h8
      rw [mkGenerator_error_iff]
      unfold validateConfig
      rw [if_neg h1, if_neg h2, if_neg h3, if_neg h4, if_neg h5, if_neg h6, if_neg h7,
        if_pos h8]
  · intro e he
    rw [mkGenerator_error_iff] at he
    unfold validateConfig at he
    split_ifs at he <;> (cases he; exact ⟨_, rfl⟩)

theorem c6_construction_validation_witness :
    mkGenerator 0 { epoch := some 0, workerId := 1, processId := none
                    bits := some { workerId := 10, processId := 10, sequence := 10 } } =
      .error (.ConfigurationError
        ("Total bits (30) exceed maximum available bits (22). " ++
         "Got: workerId=10, processId=10, sequence=10")) := by
  have h := (c6_construction_validation 0
    { epoch := some 0, workerId := 1, processId := none
      bits := some { workerId := 10, processId := 10, sequence := 10 } }).2.2.2.2.1
    (by decide) (by decide) (by decide) (by decide)
  rw [h]
  decide

/-- C1 (code bug): `compose` under the default configuration accepts the
tuple `(timestamp 0, workerId 0, processId 0, sequence 0)` — all five checks
pass since `0 ≥ 0` and `0 - epoch ≤ maxTimestamp` — yet the produced id is
negative (the epoch-adjusted timestamp `0 - 1577836800000` is packed without
a sign check), and `decompose` then rejects it with `InvalidIdError` instead
of returning the original components: the round-trip law fails. -/
theorem c1_roundtrip_violation :
    mkGenerator 1577836800000 cfgDefault = .ok genDefault ∧
    ∃ v, compose genDefault 0 0 0 0 = .ok v ∧ v < 0 ∧
      decompose genDefault v = .error (.InvalidIdError "ID cannot be negative") := by
  have hval : composeId genDefault (-1577836800000) 0 0 0 =
      -1577836800000 * 2 ^ genDefault.timestampShift + 0 * 2 ^ genDefault.processShift +
      0 * 2 ^ genDefault.workerShift + 0 :=
    @composeId_eq genDefault 10 0 (by decide) (by decide)
      (-1577836800000) 0 0 0 (by decide) (by decide) (by decide) (by decide)
      (by decide) (by decide)
  have hneg : composeId genDefault (-1577836800000) 0 0 0 < 0 := by
    rw [hval]
    decide
  refine ⟨by decide, composeId genDefault (-1577836800000) 0 0 0, ?_, hneg, ?_⟩
  · unfold compose
    rw [if_neg (by decide), if_neg (by decide), if_neg (by decide), if_neg (by decide)]
    dsimp only
    rw [if_neg (by decide)]
    norm_num [genDefault]
  · unfold decompose
    rw [if_pos hneg]

/-- C3 (code bug): `compose` under the default configuration, called with the
accepted arguments `(0, 1, 0, 0)`, returns a negative id — outside the
claimed range `[0, 2^63 - 1]` — because the epoch-adjusted timestamp
`0 - 1577836800000` is negative and is packed unchecked. -/
theorem c3_negative_id_violation :
    mkGenerator 1577836800000 cfgDefault = .ok genDefault ∧
    ∃ v, compose genDefault 0 1 0 0 = .ok v ∧ v < 0 := by
  have hval : composeId genDefault (-1577836800000) 1 0 0 =
      -1577836800000 * 2 ^ genDefault.timestampShift + 0 * 2 ^ genDefault.processShift +
      1 * 2 ^ genDefault.workerShift + 0 :=
    @composeId_eq genDefault 10 0 (by decide) (by decide)
      (-1577836800000) 1 0 0 (by decide) (by decide) (by decide) (by decide)
      (by decide) (by decide)
  refine ⟨by decide, composeId genDefault (-1577836800000) 1 0 0, ?_, ?_⟩
  · unfold compose
    rw [if_neg (by decide), if_neg (by decide), if_neg (by decide), if_neg (by decide)]
    dsimp only
    rw [if_neg (by decide)]
    norm_num [genDefault]
  · rw [hval]
    decide
